import Mathlib

/-!
Verification of the uptime-monitor core (src/main.py): monitor registry,
check-execution engine and aggregation logic, shallowly embedded in Lean.
Network effects (the actual HTTP round trip) are modelled by passing the
probe's outcome and its measured elapsed time as explicit inputs; the
in-memory `monitors` dict is modelled as an insertion-ordered association
list, matching Python dict iteration order.
-/

namespace Uptime

/-- Probe classification: `"up"` or `"down"` in the Python source. -/
inductive Status where
  | up
  | down
deriving DecidableEq, Repr

/-- One probe outcome, as built by `check_url_status` (src/main.py lines 39-62):
the dict with keys status, status_code, response_time, last_checked, error. -/
structure CheckResult where
  status : Status
  status_code : Option Nat
  response_time : ℚ
  last_checked : String
  error : Option String
deriving DecidableEq, Repr

/-- A monitor record as stored in the `monitors` dict: url, created_at,
checks, and (only on the explicit-add path) an id. -/
structure Monitor where
  url : String
  created_at : String
  checks : List CheckResult
  id : Option String
deriving DecidableEq, Repr

/-- The in-memory `monitors : Dict[str, Dict]`, as an insertion-ordered
association list with unique keys (Python dict semantics). -/
abbrev Store := List (String × Monitor)

/-- Python dict lookup `monitors[url]` / membership `url in monitors`. -/
def Store.find? (s : Store) (url : String) : Option Monitor :=
  match s with
  | [] => none
  | (k, m) :: rest => if k = url then some m else Store.find? rest url

/-- Python dict assignment `monitors[url] = m`: replaces in place if the key
exists (keeping its position), else appends at the end. -/
def Store.insert (s : Store) (url : String) (m : Monitor) : Store :=
  match s with
  | [] => [(url, m)]
  | (k, v) :: rest =>
      if k = url then (k, m) :: rest else (k, v) :: Store.insert rest url m

/-- Python `del monitors[url]` (callers check membership first). -/
def Store.erase (s : Store) (url : String) : Store :=
  match s with
  | [] => []
  | (k, v) :: rest => if k = url then rest else (k, v) :: Store.erase rest url

/-- Keys are pairwise distinct, as in a Python dict. -/
def Store.keysNodup (s : Store) : Prop :=
  (s.map Prod.fst).Nodup

/-- Rounding to the nearest integer with ties going to the even choice,
which is the documented behaviour of Python's built-in `round`. -/
def nearestEven (q : ℚ) : ℤ :=
  let fl : ℤ := q.num.fdiv (q.den : ℤ)
  let frac : ℚ := q - (fl : ℚ)
  if frac < 1 / 2 then fl
  else if 1 / 2 < frac then fl + 1
  else if fl % 2 = 0 then fl else fl + 1

/-- Python `round(x, 2)`: rounding to two decimal places, modelled exactly
over the rationals. -/
def round2 (q : ℚ) : ℚ :=
  (nearestEven (q * 100) : ℚ) / 100

/-- What the network did for one probe: either an HTTP response arrived
(with its status code), or some exception `e` was raised (timeout,
connection failure, DNS failure, ...) with message `str(e)`. -/
inductive ProbeOutcome where
  | response (code : Nat)
  | failure (msg : String)
deriving DecidableEq, Repr

/-- `check_url_status` (src/main.py lines 39-62) as a function of the probe
outcome, the measured elapsed milliseconds and the completion timestamp.
The Python try/except catches every exception, so the function is total:
it always returns a result dict, never propagates the failure. -/
def check_url_status (o : ProbeOutcome) (elapsed_ms : ℚ) (now : String) :
    CheckResult :=
  match o with
  | ProbeOutcome.response code =>
      { status := if code < 400 then Status.up else Status.down
        status_code := some code
        response_time := round2 elapsed_ms
        last_checked := now
        error := none }
  | ProbeOutcome.failure msg =>
      { status := Status.down
        status_code := none
        response_time := round2 elapsed_ms
        last_checked := now
        error := some msg }

/-- `calculate_uptime_percentage` (src/main.py lines 64-72). -/
def calculate_uptime_percentage (m : Monitor) : ℚ :=
  if m.checks.isEmpty then 0
  else
    let total_checks : ℕ := m.checks.length
    let up_checks : ℕ :=
      (m.checks.filter (fun c => c.status = Status.up)).length
    if 0 < total_checks then
      round2 (((up_checks : ℚ) / (total_checks : ℚ)) * 100)
    else 0

/-- The URL validation used on both mutation paths:
`url.startswith(("http://", "https://"))`. The prefix test is expressed on
the underlying character lists, which is what `str.startswith` means. -/
def validUrl (url : String) : Bool :=
  ("http://").data.isPrefixOf url.data || ("https://").data.isPrefixOf url.data

/-- The error outcomes raised as HTTPException by the handlers. -/
inductive ApiError where
  | invalidURL
  | duplicateURL
  | notFound
deriving DecidableEq, Repr

/-- The `checks` truncation of src/main.py lines 148-149:
`if len(checks) > 100: checks = checks[-100:]`. -/
def truncate100 (l : List CheckResult) : List CheckResult :=
  if l.length > 100 then l.drop (l.length - 100) else l

/-- The store mutation of `get_monitors` with a url (src/main.py lines
139-149): implicitly create the record if absent (without an id), append
the check, keep the last 100. -/
def appendCheck (s : Store) (url : String) (cr : CheckResult) (now : String) :
    Store :=
  match s.find? url with
  | some m => s.insert url { m with checks := truncate100 (m.checks ++ [cr]) }
  | none =>
      s.insert url
        { url := url, created_at := now,
          checks := truncate100 ([] ++ [cr]), id := none }

/-- The response model returned by the ad-hoc check path. -/
structure MonitorResponse where
  url : String
  status : Status
  response_time : ℚ
  status_code : Option Nat
  last_checked : String
  uptime_percentage : ℚ
deriving DecidableEq, Repr

/-- The specific-url branch of `get_monitors` (src/main.py lines 133-162):
validate, probe (outcome passed in as `cr`), store, respond. -/
def get_monitors_check (s : Store) (url : String) (cr : CheckResult)
    (now : String) : Except ApiError (Store × MonitorResponse) :=
  if validUrl url then
    let s1 := appendCheck s url cr now
    let up :=
      match s1.find? url with
      | some m => calculate_uptime_percentage m
      | none => 0
    Except.ok (s1,
      { url := url
        status := cr.status
        response_time := cr.response_time
        status_code := cr.status_code
        last_checked := cr.last_checked
        uptime_percentage := up })
  else Except.error ApiError.invalidURL

/-- The JSON object returned by `add_monitor_logic` on success. -/
structure AddResponse where
  id : String
  url : String
  uptime : ℚ
  totalChecks : ℕ
  avgResponseTime : ℚ
  lastCheckTimestamp : String
  lastCheckStatus : Status
  lastCheckResponseTime : ℚ
  isActive : Bool
deriving DecidableEq, Repr

/-- `add_monitor_logic` (src/main.py lines 180-214): validate, reject
duplicates, perform the initial check (outcome passed in as `cr`), store
the record with `checks = [cr]` and a timestamp-derived id. -/
def add_monitor_logic (s : Store) (url : String) (cr : CheckResult)
    (now : String) (now_ms : ℕ) : Except ApiError (Store × AddResponse) :=
  if ¬ validUrl url then Except.error ApiError.invalidURL
  else if (s.find? url).isSome then Except.error ApiError.duplicateURL
  else
    let monitor_id := toString now_ms
    let s1 := s.insert url
      { url := url, created_at := now, checks := [cr], id := some monitor_id }
    Except.ok (s1,
      { id := monitor_id
        url := url
        uptime := 100
        totalChecks := 1
        avgResponseTime := cr.response_time
        lastCheckTimestamp := cr.last_checked
        lastCheckStatus := cr.status
        lastCheckResponseTime := cr.response_time
        isActive := true })

/-- `remove_monitor` (src/main.py lines 226-233): 404 when the url is not a
key, else delete the whole record. -/
def remove_monitor (s : Store) (url : String) : Except ApiError Store :=
  if (s.find? url).isSome then Except.ok (s.erase url)
  else Except.error ApiError.notFound

/-- Python list slicing `l[i:]` for an arbitrary integer start index:
a negative index counts from the end and clamps at 0. -/
def pySliceFrom (l : List CheckResult) (i : ℤ) : List CheckResult :=
  if i < 0 then l.drop ((l.length + i).toNat) else l.drop i.toNat

/-- The JSON object returned by `get_monitor_history` on success. -/
structure HistoryResponse where
  url : String
  checks : List CheckResult
  total_checks : ℕ
  uptime_percentage : ℚ
deriving DecidableEq, Repr

/-- `get_monitor_history` (src/main.py lines 244-256): 404 when unknown,
else `checks[-limit:]` plus total count and uptime. -/
def get_monitor_history (s : Store) (url : String) (limit : ℤ) :
    Except ApiError HistoryResponse :=
  match s.find? url with
  | none => Except.error ApiError.notFound
  | some m =>
      Except.ok
        { url := url
          checks := pySliceFrom m.checks (-limit)
          total_checks := m.checks.length
          uptime_percentage := calculate_uptime_percentage m }

/-- An entry of `up_urls` in the stats response. -/
structure UpEntry where
  url : String
  status : Status
  response_time : ℚ
  last_checked : String
deriving DecidableEq, Repr

/-- An entry of `down_urls` in the stats response (also carries the error). -/
structure DownEntry where
  url : String
  status : Status
  response_time : ℚ
  last_checked : String
  error : Option String
deriving DecidableEq, Repr

/-- The JSON object returned by `get_stats`. -/
structure StatsResponse where
  total_monitors : ℕ
  up_monitors : ℕ
  down_monitors : ℕ
  overall_uptime : ℚ
  up_urls : List UpEntry
  down_urls : List DownEntry
deriving DecidableEq, Repr

/-- `get_stats` (src/main.py lines 258-297): iterate the dict in insertion
order, classify each monitor by the status of its last check (skipping
monitors with no checks), and aggregate. -/
def get_stats (s : Store) : StatsResponse :=
  let up_urls : List UpEntry :=
    s.filterMap (fun p =>
      match p.2.checks.getLast? with
      | some c =>
          if c.status = Status.up then
            some { url := p.1, status := c.status,
                   response_time := c.response_time,
                   last_checked := c.last_checked }
          else none
      | none => none)
  let down_urls : List DownEntry :=
    s.filterMap (fun p =>
      match p.2.checks.getLast? with
      | some c =>
          if c.status = Status.up then none
          else
            some { url := p.1, status := c.status,
                   response_time := c.response_time,
                   last_checked := c.last_checked, error := c.error }
      | none => none)
  let total_monitors := s.length
  let up_monitors := up_urls.length
  let down_monitors := down_urls.length
  { total_monitors := total_monitors
    up_monitors := up_monitors
    down_monitors := down_monitors
    overall_uptime :=
      if 0 < total_monitors then
        round2 (((up_monitors : ℚ) / (total_monitors : ℚ)) * 100)
      else 0
    up_urls := up_urls
    down_urls := down_urls }

/-- Number of stored checks with status `"up"`. -/
def upCount (m : Monitor) : ℕ :=
  (m.checks.filter (fun c => c.status = Status.up)).length

/-- Number of stored checks with status `"down"`. -/
def downCount (m : Monitor) : ℕ :=
  (m.checks.filter (fun c => c.status = Status.down)).length

/-- The status of a monitor's most recent check, if any. -/
def lastStatus (m : Monitor) : Option Status :=
  (m.checks.getLast?).map CheckResult.status

/-- One public operation of the API, with all environment inputs (probe
outcome, timestamps) made explicit. -/
inductive Op where
  | checkUrl (url : String) (cr : CheckResult) (now : String)
  | addMonitor (url : String) (cr : CheckResult) (now : String) (now_ms : ℕ)
  | removeMonitor (url : String)
  | history (url : String) (limit : ℤ)
  | listMonitors
  | stats
deriving DecidableEq, Repr

/-- The effect of one public operation on the `monitors` store. A failed
operation (HTTPException) leaves the store untouched; the read-only
operations (history, listing, stats) never mutate it. -/
def step (s : Store) (op : Op) : Store :=
  match op with
  | Op.checkUrl url cr now =>
      match get_monitors_check s url cr now with
      | Except.ok (s1, _) => s1
      | Except.error _ => s
  | Op.addMonitor url cr now now_ms =>
      match add_monitor_logic s url cr now now_ms with
      | Except.ok (s1, _) => s1
      | Except.error _ => s
  | Op.removeMonitor url =>
      match remove_monitor s url with
      | Except.ok s1 => s1
      | Except.error _ => s
  | Op.history _ _ => s
  | Op.listMonitors => s
  | Op.stats => s

/-- Every stored monitor has at least one recorded check. -/
def nonEmptyChecks (s : Store) : Prop :=
  ∀ p ∈ s, (p.2 : Monitor).checks ≠ []

/-! ### Concrete sample data used in the witness theorems -/

/-- A sample successful check (HTTP 200). -/
def demoCheckUp : CheckResult :=
  { status := Status.up, status_code := some 200, response_time := 12,
    last_checked := "t1", error := none }

/-- A sample failed check (HTTP 500). -/
def demoCheckDown : CheckResult :=
  { status := Status.down, status_code := some 500, response_time := 30,
    last_checked := "t2", error := none }

/-- A sample check produced by a raised exception. -/
def demoCheckErr : CheckResult :=
  { status := Status.down, status_code := none, response_time := 10000,
    last_checked := "t3", error := some "Connect timeout" }

/-- 100 identical appended checks, for the bounded-history witness. -/
def demoCs : List CheckResult := List.replicate 100 demoCheckUp

/-- The monitor obtained by appending `demoCs` to a fresh record. -/
def demoMonitor100 : Monitor :=
  { url := "https://a.test", created_at := "t0",
    checks := List.replicate 100 demoCheckUp, id := none }

/-- A monitor whose last check is up. -/
def demoMonitorUp : Monitor :=
  { url := "https://a.test", created_at := "t0",
    checks := [demoCheckDown, demoCheckUp], id := none }

/-- A monitor whose last check is down. -/
def demoMonitorDown : Monitor :=
  { url := "https://b.test", created_at := "t0",
    checks := [demoCheckUp, demoCheckDown], id := none }

/-- A monitor with an empty history. -/
def demoMonitorEmpty : Monitor :=
  { url := "https://c.test", created_at := "t0", checks := [], id := none }

/-- A three-monitor store: last-up, last-down, empty history. -/
def demoStore3 : Store :=
  [("https://a.test", demoMonitorUp), ("https://b.test", demoMonitorDown),
   ("https://c.test", demoMonitorEmpty)]

/-- The monitor created by a single ad-hoc probe of a fresh URL. -/
def demoMonitor1 : Monitor :=
  { url := "https://a.test", created_at := "t0",
    checks := [demoCheckUp], id := none }

/-- A monitor holding two checks, up then down. -/
def demoMonitorUD : Monitor :=
  { url := "https://a.test", created_at := "t0",
    checks := [demoCheckUp, demoCheckDown], id := none }

/-- A one-monitor store holding two checks (up then down). -/
def demoStoreUD : Store :=
  [("https://a.test", demoMonitorUD)]

/-- The history response for `demoStoreUD` with limit 1. -/
def demoHist : HistoryResponse :=
  { url := "https://a.test", checks := [demoCheckDown], total_checks := 2,
    uptime_percentage := calculate_uptime_percentage demoMonitorUD }

/-- The store produced by an explicit add of a fresh URL at timestamp 1712. -/
def demoAddStore : Store :=
  [("https://a.test",
    { url := "https://a.test", created_at := "t5", checks := [demoCheckUp],
      id := some (toString 1712) })]

/-- The response produced by that explicit add. -/
def demoAddResp : AddResponse :=
  { id := toString 1712, url := "https://a.test", uptime := 100,
    totalChecks := 1, avgResponseTime := demoCheckUp.response_time,
    lastCheckTimestamp := demoCheckUp.last_checked,
    lastCheckStatus := demoCheckUp.status,
    lastCheckResponseTime := demoCheckUp.response_time, isActive := true }

/-- A short mixed run of public operations. -/
def demoOps : List Op :=
  [Op.addMonitor ("https://a.test") demoCheckUp ("t1") 1111,
   Op.checkUrl ("https://b.test") demoCheckDown ("t2"),
   Op.checkUrl ("https://a.test") demoCheckErr ("t3"),
   Op.removeMonitor ("https://b.test"),
   Op.history ("https://a.test") 50,
   Op.stats]

/-! ### Basic lemmas about the store and the history bound -/

theorem Store.find?_insert_self (s : Store) (url : String) (m : Monitor) :
    (s.insert url m).find? url = some m := by
  induction s with
  | nil => simp [Store.insert, Store.find?]
  | cons p rest ih =>
      obtain ⟨k, v⟩ := p
      by_cases h : k = url
      · simp [Store.insert, Store.find?, h]
      · simp [Store.insert, Store.find?, h, ih]

theorem Store.mem_insert {p : String × Monitor} {url : String}
    {m : Monitor} : ∀ {s : Store}, p ∈ s.insert url m → p = (url, m) ∨ p ∈ s := by
  intro s
  induction s with
  | nil =>
      intro h
      simp only [Store.insert, List.mem_singleton] at h
      exact Or.inl h
  | cons q rest ih =>
      obtain ⟨k, v⟩ := q
      intro h
      by_cases hk : k = url
      · subst hk
        simp only [Store.insert, eq_self_iff_true, if_true, List.mem_cons] at h
        rcases h with h | h
        · exact Or.inl h
        · exact Or.inr (List.mem_cons_of_mem _ h)
      · simp only [Store.insert, if_neg hk, List.mem_cons] at h
        rcases h with h | h
        · exact Or.inr (by simp [h])
        · rcases ih h with h' | h'
          · exact Or.inl h'
          · exact Or.inr (List.mem_cons_of_mem _ h')

theorem Store.mem_erase {p : String × Monitor} {url : String} :
    ∀ {s : Store}, p ∈ s.erase url → p ∈ s := by
  intro s
  induction s with
  | nil =>
      intro h
      simp only [Store.erase] at h
      exact absurd h (List.not_mem_nil p)
  | cons q rest ih =>
      obtain ⟨k, v⟩ := q
      intro h
      by_cases hk : k = url
      · simp only [Store.erase, if_pos hk] at h
        exact List.mem_cons_of_mem _ h
      · simp only [Store.erase, if_neg hk, List.mem_cons] at h
        rcases h with h | h
        · simp [h]
        · exact List.mem_cons_of_mem _ (ih h)

theorem Store.find?_eq_none_of_not_mem_keys {s : Store} {url : String}
    (h : url ∉ s.map Prod.fst) : s.find? url = none := by
  induction s with
  | nil => rfl
  | cons q rest ih =>
      obtain ⟨k, v⟩ := q
      simp only [List.map_cons, List.mem_cons] at h
      push_neg at h
      have hk : ¬ k = url := fun hh => h.1 hh.symm
      simp [Store.find?, hk, ih h.2]

theorem Store.find?_erase_self {s : Store} {url : String}
    (hnd : s.keysNodup) : (s.erase url).find? url = none := by
  induction s with
  | nil => rfl
  | cons q rest ih =>
      obtain ⟨k, v⟩ := q
      simp only [Store.keysNodup, List.map_cons, List.nodup_cons] at hnd
      by_cases hk : k = url
      · subst hk
        simp only [Store.erase, if_pos rfl]
        exact Store.find?_eq_none_of_not_mem_keys hnd.1
      · simp [Store.erase, hk, Store.find?, ih hnd.2]

theorem truncate100_eq_drop (l : List CheckResult) :
    truncate100 l = l.drop (l.length - 100) := by
  unfold truncate100
  by_cases h : l.length > 100
  · simp [h]
  · have : l.length - 100 = 0 := by omega
    simp [h, this]

theorem truncate100_length (l : List CheckResult) :
    (truncate100 l).length = min l.length 100 := by
  rw [truncate100_eq_drop, List.length_drop]
  omega

theorem truncate100_append_left (l cs : List CheckResult) :
    truncate100 (truncate100 l ++ cs) = truncate100 (l ++ cs) := by
  simp only [truncate100_eq_drop, List.drop_append_eq_append_drop,
    List.length_append, List.length_drop, List.drop_drop]
  congr 1
  · congr 1
    omega
  · congr 1
    omega

theorem appendCheck_find?_checks (s : Store) (url : String) (cr : CheckResult)
    (now : String) :
    ((appendCheck s url cr now).find? url).map Monitor.checks
      = some (truncate100 ((((s.find? url).map Monitor.checks).getD []) ++ [cr])) := by
  unfold appendCheck
  cases h : s.find? url <;> simp [h, Store.find?_insert_self]

theorem appendCheck_fold_checks (url now : String) (cs : List CheckResult)
    (hcs : cs ≠ []) : ∀ s : Store,
    ((cs.foldl (fun s c => appendCheck s url c now) s).find? url).map Monitor.checks
      = some (truncate100 ((((s.find? url).map Monitor.checks).getD []) ++ cs)) := by
  induction cs with
  | nil => exact absurd rfl hcs
  | cons c cs' ih =>
      intro s
      rcases eq_or_ne cs' [] with h' | h'
      · subst h'
        simpa using appendCheck_find?_checks s url c now
      · have step1 := appendCheck_find?_checks s url c now
        calc ((cs'.foldl (fun s c => appendCheck s url c now)
                (appendCheck s url c now)).find? url).map Monitor.checks
            = some (truncate100
                (((((appendCheck s url c now).find? url).map Monitor.checks).getD [])
                  ++ cs')) := ih h' _
          _ = some (truncate100
                ((truncate100 ((((s.find? url).map Monitor.checks).getD []) ++ [c]))
                  ++ cs')) := by rw [step1]; rfl
          _ = some (truncate100
                ((((s.find? url).map Monitor.checks).getD []) ++ (c :: cs'))) := by
                rw [truncate100_append_left]
                simp

end Uptime

namespace Uptime

/-! ### Arithmetic helper lemmas -/

theorem count_up_add_count_down (l : List CheckResult) :
    (l.filter (fun c => c.status = Status.up)).length
      + (l.filter (fun c => c.status = Status.down)).length = l.length := by
  induction l with
  | nil => rfl
  | cons c l ih =>
      cases hc : c.status <;> simp [List.filter_cons, hc] <;> omega

/-! ### Claim theorems -/

/-- C1: after every append-check operation the monitor's checks list has
length at most 100, and when N ≥ 100 checks have been appended to a fresh
monitor the retained entries are exactly the most recent 100 in their
original oldest-first order. -/
theorem C1_bounded_history :
    (∀ (s : Store) (url : String) (cr : CheckResult) (now : String)
        (m : Monitor),
        (appendCheck s url cr now).find? url = some m →
        m.checks.length ≤ 100)
    ∧ (∀ (url now : String) (cs : List CheckResult), 100 ≤ cs.length →
        ∀ m : Monitor,
          (cs.foldl (fun s c => appendCheck s url c now) []).find? url = some m →
          m.checks = cs.drop (cs.length - 100) ∧ m.checks.length = 100) := by
  constructor
  · intro s url cr now m hm
    have h := appendCheck_find?_checks s url cr now
    rw [hm] at h
    simp only [Option.map_some'] at h
    have hch : m.checks = truncate100
        ((((s.find? url).map Monitor.checks).getD []) ++ [cr]) :=
      Option.some.inj h
    rw [hch, truncate100_length]
    omega
  · intro url now cs hlen m hm
    have hne : cs ≠ [] := by
      intro h
      rw [h] at hlen
      simp at hlen
    have h := appendCheck_fold_checks url now cs hne []
    rw [hm] at h
    simp only [Option.map_some'] at h
    have hfind : (Store.find? [] url) = none := rfl
    rw [hfind] at h
    simp only [Option.map_none', Option.getD_none, List.nil_append] at h
    have hch : m.checks = truncate100 cs := Option.some.inj h
    constructor
    · rw [hch, truncate100_eq_drop]
    · rw [hch, truncate100_length]
      omega

set_option maxRecDepth 10000 in
/-- Witness for C1: one append to an empty store, and a run of 100 appends. -/
theorem C1_bounded_history_witness :
    demoMonitor1.checks.length ≤ 100
    ∧ 100 ≤ demoCs.length
    ∧ demoMonitor100.checks = demoCs.drop (demoCs.length - 100)
    ∧ demoMonitor100.checks.length = 100 := by
  have h2 := C1_bounded_history.2 ("https://a.test") ("t0") demoCs (by decide)
    demoMonitor100 (by decide)
  exact ⟨C1_bounded_history.1 [] ("https://a.test") demoCheckUp ("t0")
    demoMonitor1 (by decide), by decide, h2.1, h2.2⟩

/-- C2: the uptime percentage of a monitor with U up checks and D down checks
is round(100*U/(U+D), 2), and 0.0 for an empty history. -/
theorem C2_uptime_percentage (m : Monitor) :
    (m.checks ≠ [] →
      calculate_uptime_percentage m
        = round2 (100 * (upCount m : ℚ)
            / ((upCount m : ℚ) + (downCount m : ℚ))))
    ∧ (m.checks = [] → calculate_uptime_percentage m = 0) := by
  constructor
  · intro h
    have hlen : 0 < m.checks.length := List.length_pos.mpr h
    have hisEmpty : m.checks.isEmpty = false := by
      cases hc : m.checks
      · exact absurd hc h
      · rfl
    have hud : upCount m + downCount m = m.checks.length :=
      count_up_add_count_down m.checks
    unfold calculate_uptime_percentage
    rw [hisEmpty]
    simp only [Bool.false_eq_true, if_false, if_pos hlen]
    show round2 (((upCount m : ℚ) / (m.checks.length : ℚ)) * 100) = _
    congr 1
    rw [← hud]
    push_cast
    ring
  · intro h
    simp [calculate_uptime_percentage, h]

/-- Witness for C2 at a two-check monitor and at an empty-history monitor. -/
theorem C2_uptime_percentage_witness :
    calculate_uptime_percentage demoMonitorUp
      = round2 (100 * (upCount demoMonitorUp : ℚ)
          / ((upCount demoMonitorUp : ℚ) + (downCount demoMonitorUp : ℚ)))
    ∧ calculate_uptime_percentage demoMonitorEmpty = 0 :=
  ⟨(C2_uptime_percentage demoMonitorUp).1 (by decide),
   (C2_uptime_percentage demoMonitorEmpty).2 (by decide)⟩

/-- C3: a probe with an HTTP response classifies up iff the status code is
below 400, recording the code with no error; a probe that raises classifies
down with no status code and an error message. -/
theorem C3_status_classification (code : ℕ) (elapsed : ℚ) (now msg : String) :
    ((check_url_status (ProbeOutcome.response code) elapsed now).status
        = Status.up ↔ code < 400)
    ∧ (check_url_status (ProbeOutcome.response code) elapsed now).status_code
        = some code
    ∧ (check_url_status (ProbeOutcome.response code) elapsed now).error = none
    ∧ (check_url_status (ProbeOutcome.failure msg) elapsed now).status
        = Status.down
    ∧ (check_url_status (ProbeOutcome.failure msg) elapsed now).status_code
        = none
    ∧ (check_url_status (ProbeOutcome.failure msg) elapsed now).error
        = some msg := by
  refine ⟨?_, rfl, rfl, rfl, rfl, rfl⟩
  by_cases h : code < 400 <;> simp [check_url_status, h]

/-- Witness for C3 at the 399/400 boundary and at a timeout failure. -/
theorem C3_status_classification_witness :
    ((check_url_status (ProbeOutcome.response 399) 5 ("t")).status
        = Status.up ↔ 399 < 400)
    ∧ ((check_url_status (ProbeOutcome.response 400) 5 ("t")).status
        = Status.up ↔ 400 < 400)
    ∧ (check_url_status (ProbeOutcome.failure ("Connect timeout")) 5
        ("t")).status = Status.down
    ∧ (check_url_status (ProbeOutcome.failure ("Connect timeout")) 5
        ("t")).status_code = none
    ∧ (check_url_status (ProbeOutcome.failure ("Connect timeout")) 5
        ("t")).error = some ("Connect timeout") :=
  ⟨(C3_status_classification 399 5 ("t") ("Connect timeout")).1,
   (C3_status_classification 400 5 ("t") ("Connect timeout")).1,
   (C3_status_classification 400 5 ("t") ("Connect timeout")).2.2.2.1,
   (C3_status_classification 400 5 ("t") ("Connect timeout")).2.2.2.2.1,
   (C3_status_classification 400 5 ("t") ("Connect timeout")).2.2.2.2.2⟩

/-- C4: the probe is a total function of its outcome — every transport-level
failure is returned as a down result carrying the error message and the
measured elapsed time, never propagated to the caller. -/
theorem C4_probe_never_propagates (o : ProbeOutcome) (elapsed : ℚ)
    (now msg : String) :
    (check_url_status o elapsed now).response_time = round2 elapsed
    ∧ (o = ProbeOutcome.failure msg →
        (check_url_status o elapsed now).status = Status.down
        ∧ (check_url_status o elapsed now).error = some msg
        ∧ (check_url_status o elapsed now).status_code = none) := by
  cases o with
  | response code =>
      refine ⟨rfl, ?_⟩
      intro h
      cases h
  | failure m2 =>
      refine ⟨rfl, ?_⟩
      intro h
      injection h with he
      subst he
      exact ⟨rfl, rfl, rfl⟩

/-- Witness for C4 at a concrete timeout failure. -/
theorem C4_probe_never_propagates_witness :
    (check_url_status (ProbeOutcome.failure ("Read timed out")) 21
        ("t")).response_time = round2 21
    ∧ ((check_url_status (ProbeOutcome.failure ("Read timed out")) 21
          ("t")).status = Status.down
        ∧ (check_url_status (ProbeOutcome.failure ("Read timed out")) 21
            ("t")).error = some ("Read timed out")
        ∧ (check_url_status (ProbeOutcome.failure ("Read timed out")) 21
            ("t")).status_code = none) :=
  ⟨(C4_probe_never_propagates (ProbeOutcome.failure ("Read timed out")) 21
      ("t") ("Read timed out")).1,
   (C4_probe_never_propagates (ProbeOutcome.failure ("Read timed out")) 21
      ("t") ("Read timed out")).2 rfl⟩

end Uptime

namespace Uptime

/-! ### Fleet-statistics lemmas -/

theorem get_stats_up_urls (s : Store) :
    (get_stats s).up_urls
      = s.filterMap (fun p =>
          match p.2.checks.getLast? with
          | some c =>
              if c.status = Status.up then
                some { url := p.1, status := c.status,
                       response_time := c.response_time,
                       last_checked := c.last_checked }
              else none
          | none => none) := rfl

theorem get_stats_down_urls (s : Store) :
    (get_stats s).down_urls
      = s.filterMap (fun p =>
          match p.2.checks.getLast? with
          | some c =>
              if c.status = Status.up then none
              else
                some { url := p.1, status := c.status,
                       response_time := c.response_time,
                       last_checked := c.last_checked, error := c.error }
          | none => none) := rfl

theorem up_urls_map_url (s : Store) :
    ((get_stats s).up_urls).map UpEntry.url
      = (s.filter (fun p => lastStatus p.2 = some Status.up)).map Prod.fst := by
  rw [get_stats_up_urls]
  induction s with
  | nil => rfl
  | cons p rest ih =>
      obtain ⟨k, m⟩ := p
      cases hc : m.checks.getLast? with
      | none =>
          have hl2 : lastStatus m = none := by rw [lastStatus, hc]; rfl
          simp only [List.filterMap_cons, List.filter_cons, hc, hl2]
          simp [ih]
      | some c =>
          have hl2 : lastStatus m = some c.status := by rw [lastStatus, hc]; rfl
          cases hs : c.status with
          | up =>
              rw [hs] at hl2
              simp only [List.filterMap_cons, List.filter_cons, hc, hl2, hs]
              simp [ih]
          | down =>
              rw [hs] at hl2
              simp only [List.filterMap_cons, List.filter_cons, hc, hl2, hs]
              simp [ih]

theorem down_urls_map_url (s : Store) :
    ((get_stats s).down_urls).map DownEntry.url
      = (s.filter (fun p => lastStatus p.2 = some Status.down)).map Prod.fst := by
  rw [get_stats_down_urls]
  induction s with
  | nil => rfl
  | cons p rest ih =>
      obtain ⟨k, m⟩ := p
      cases hc : m.checks.getLast? with
      | none =>
          have hl2 : lastStatus m = none := by rw [lastStatus, hc]; rfl
          simp only [List.filterMap_cons, List.filter_cons, hc, hl2]
          simp [ih]
      | some c =>
          have hl2 : lastStatus m = some c.status := by rw [lastStatus, hc]; rfl
          cases hs : c.status with
          | up =>
              rw [hs] at hl2
              simp only [List.filterMap_cons, List.filter_cons, hc, hl2, hs]
              simp [ih]
          | down =>
              rw [hs] at hl2
              simp only [List.filterMap_cons, List.filter_cons, hc, hl2, hs]
              simp [ih]

theorem up_monitors_eq (s : Store) :
    (get_stats s).up_monitors
      = (s.filter (fun p => lastStatus p.2 = some Status.up)).length := by
  have h1 : (get_stats s).up_monitors = ((get_stats s).up_urls).length := rfl
  rw [h1, ← List.length_map ((get_stats s).up_urls) UpEntry.url,
    up_urls_map_url, List.length_map]

theorem down_monitors_eq (s : Store) :
    (get_stats s).down_monitors
      = (s.filter (fun p => lastStatus p.2 = some Status.down)).length := by
  have h1 : (get_stats s).down_monitors = ((get_stats s).down_urls).length := rfl
  rw [h1, ← List.length_map ((get_stats s).down_urls) DownEntry.url,
    down_urls_map_url, List.length_map]

/-- C5: fleet statistics classify each monitor by the status of its last
check; an empty-history monitor counts in the total but in neither list;
the overall uptime is round(100*upMonitors/totalMonitors, 2), or 0 with no
monitors. -/
theorem C5_fleet_stats (s : Store) :
    (get_stats s).total_monitors = s.length
    ∧ (get_stats s).up_monitors
        = (s.filter (fun p => lastStatus p.2 = some Status.up)).length
    ∧ (get_stats s).down_monitors
        = (s.filter (fun p => lastStatus p.2 = some Status.down)).length
    ∧ ((get_stats s).up_urls).map UpEntry.url
        = (s.filter (fun p => lastStatus p.2 = some Status.up)).map Prod.fst
    ∧ ((get_stats s).down_urls).map DownEntry.url
        = (s.filter (fun p => lastStatus p.2 = some Status.down)).map Prod.fst
    ∧ (s ≠ [] → (get_stats s).overall_uptime
        = round2 (100 * ((get_stats s).up_monitors : ℚ) / (s.length : ℚ)))
    ∧ (s = [] → (get_stats s).overall_uptime = 0) := by
  refine ⟨rfl, up_monitors_eq s, down_monitors_eq s, up_urls_map_url s,
    down_urls_map_url s, ?_, ?_⟩
  · intro h
    have hlen : 0 < s.length := List.length_pos.mpr h
    have hov : (get_stats s).overall_uptime
        = if 0 < s.length then
            round2 (((get_stats s).up_monitors : ℚ) / (s.length : ℚ) * 100)
          else 0 := rfl
    rw [hov, if_pos hlen]
    congr 1
    ring
  · intro h
    subst h
    rfl

unseal Rat.mul Rat.add Rat.sub Rat.inv in
/-- Witness for C5 at the three-monitor scenario (last-up, last-down, empty
history): counts 3/1/1, overall uptime 33.33, and the empty-history monitor
appears in neither URL list. -/
theorem C5_fleet_stats_witness :
    (get_stats demoStore3).total_monitors = 3
    ∧ (get_stats demoStore3).up_monitors = 1
    ∧ (get_stats demoStore3).down_monitors = 1
    ∧ (get_stats demoStore3).overall_uptime = 3333 / 100
    ∧ (get_stats demoStore3).overall_uptime
        = round2 (100 * ((get_stats demoStore3).up_monitors : ℚ)
            / (demoStore3.length : ℚ))
    ∧ ((get_stats demoStore3).up_urls).map UpEntry.url = ["https://a.test"]
    ∧ ((get_stats demoStore3).down_urls).map DownEntry.url
        = ["https://b.test"] := by
  refine ⟨by decide, by decide, by decide, by decide,
    (C5_fleet_stats demoStore3).2.2.2.2.2.1 (by decide), by decide, by decide⟩

/-- C6: adding a URL that is already a key of the store fails with the
duplicate-registration error; the handler raises before any mutation, so the
existing record is untouched and URLs stay unique keys. -/
theorem C6_no_duplicate_registration (s : Store) (url : String)
    (cr : CheckResult) (now : String) (now_ms : ℕ)
    (hv : validUrl url = true) (hmem : (s.find? url).isSome = true) :
    add_monitor_logic s url cr now now_ms
      = Except.error ApiError.duplicateURL := by
  simp [add_monitor_logic, hv, hmem]

/-- Witness for C6: re-adding an already monitored URL. -/
theorem C6_no_duplicate_registration_witness :
    add_monitor_logic demoStoreUD ("https://a.test") demoCheckUp ("t9") 1234
      = Except.error ApiError.duplicateURL :=
  C6_no_duplicate_registration demoStoreUD ("https://a.test") demoCheckUp
    ("t9") 1234 (by decide) (by decide)

/-- C7: removing a tracked URL deletes the record with its whole history — a
following history lookup fails with NotFound and a re-add starts from just
the fresh initial check, independent of the removed history; removing an
untracked URL fails with NotFound. -/
theorem C7_removal_clears_history (s : Store) (url : String) (limit : ℤ)
    (cr : CheckResult) (now : String) (now_ms : ℕ)
    (hnd : s.keysNodup) :
    (∀ s1, remove_monitor s url = Except.ok s1 →
      get_monitor_history s1 url limit = Except.error ApiError.notFound
      ∧ (validUrl url = true →
          ∀ s2 resp, add_monitor_logic s1 url cr now now_ms
              = Except.ok (s2, resp) →
            (s2.find? url).map Monitor.checks = some [cr]))
    ∧ (s.find? url = none →
        remove_monitor s url = Except.error ApiError.notFound) := by
  constructor
  · intro s1 h1
    have hsome : (s.find? url).isSome = true := by
      by_cases hs : (s.find? url).isSome = true
      · exact hs
      · rw [remove_monitor, if_neg hs] at h1
        cases h1
    rw [remove_monitor, if_pos hsome] at h1
    have hs1 : s1 = s.erase url := (Except.ok.inj h1).symm
    have hgone : s1.find? url = none := by
      rw [hs1]
      exact Store.find?_erase_self hnd
    constructor
    · rw [get_monitor_history, hgone]
    · intro hv s2 resp h2
      rw [add_monitor_logic] at h2
      rw [hv] at h2
      simp only [Bool.true_eq_false, not_false_eq_true, if_true, hgone,
        Option.isSome_none, Bool.false_eq_true, if_false, if_neg] at h2
      have hs2 : s2 = s1.insert url
          { url := url, created_at := now, checks := [cr],
            id := some (toString now_ms) } := by
        cases h2
        rfl
      rw [hs2, Store.find?_insert_self]
      rfl
  · intro hnone
    rw [remove_monitor, hnone]
    rfl

/-- Witness for C7: remove the only monitor, see NotFound on history, re-add
and observe a single-entry history; also NotFound on removing an unknown URL. -/
theorem C7_removal_clears_history_witness :
    (get_monitor_history (demoStoreUD.erase ("https://a.test"))
        ("https://a.test") 50 = Except.error ApiError.notFound
      ∧ (((demoStoreUD.erase ("https://a.test")).insert ("https://a.test")
          { url := "https://a.test", created_at := "t9",
            checks := [demoCheckErr], id := some (toString 777) }).find?
            ("https://a.test")).map Monitor.checks = some [demoCheckErr])
    ∧ remove_monitor [] ("https://a.test")
        = Except.error ApiError.notFound := by
  have h := C7_removal_clears_history demoStoreUD ("https://a.test") 50
    demoCheckErr ("t9") 777 (by simp [Store.keysNodup, demoStoreUD])
  have h1 := h.1 (demoStoreUD.erase ("https://a.test")) (by rfl)
  have h2 := h1.2 (by decide)
    ((demoStoreUD.erase ("https://a.test")).insert ("https://a.test")
      { url := "https://a.test", created_at := "t9",
        checks := [demoCheckErr], id := some (toString 777) })
    { id := toString 777, url := "https://a.test", uptime := 100,
      totalChecks := 1, avgResponseTime := demoCheckErr.response_time,
      lastCheckTimestamp := demoCheckErr.last_checked,
      lastCheckStatus := demoCheckErr.status,
      lastCheckResponseTime := demoCheckErr.response_time,
      isActive := true } (by rfl)
  exact ⟨⟨h1.1, h2⟩,
    (C7_removal_clears_history [] ("https://a.test") 50 demoCheckErr ("t9")
      777 (by simp [Store.keysNodup])).2 (by rfl)⟩

end Uptime

namespace Uptime

/-- C8 counterexample: with limit 0 the history endpoint does not return zero
entries — Python's `checks[-0:]` is `checks[0:]`, the whole list — so a
monitor with two stored checks gets both back. -/
theorem C8_limit_zero_counterexample :
    (get_monitor_history demoStoreUD ("https://a.test") 0).map
        (fun r => r.checks) = Except.ok [demoCheckUp, demoCheckDown]
    ∧ ([demoCheckUp, demoCheckDown] : List CheckResult).length ≠ 0 :=
  ⟨rfl, by decide⟩

/-- C8 amended: for a caller limit N ≥ 1 the history endpoint returns exactly
the most recent min(N, K) entries in stored oldest-first order, with the
total count K and the current uptime percentage; for N = 0 it returns all K
entries (Python `checks[-0:]` is the whole list), not zero entries. -/
theorem C8_history_retrieval (s : Store) (url : String) (limit : ℤ)
    (m : Monitor) (hm : s.find? url = some m) :
    ∀ r, get_monitor_history s url limit = Except.ok r →
      (1 ≤ limit →
        r.checks = m.checks.drop (m.checks.length - limit.toNat)
        ∧ r.checks.length = min limit.toNat m.checks.length)
      ∧ (limit = 0 → r.checks = m.checks)
      ∧ r.total_checks = m.checks.length
      ∧ r.uptime_percentage = calculate_uptime_percentage m := by
  intro r hr
  rw [get_monitor_history, hm] at hr
  have hr' : r
      = { url := url
          checks := pySliceFrom m.checks (-limit)
          total_checks := m.checks.length
          uptime_percentage := calculate_uptime_percentage m } :=
    (Except.ok.inj hr).symm
  subst hr'
  refine ⟨?_, ?_, rfl, rfl⟩
  · intro hl
    have hneg : -limit < 0 := by omega
    have htn : ((m.checks.length : ℤ) + -limit).toNat
        = m.checks.length - limit.toNat := by omega
    constructor
    · show pySliceFrom m.checks (-limit) = _
      rw [pySliceFrom, if_pos hneg, htn]
    · show (pySliceFrom m.checks (-limit)).length = _
      rw [pySliceFrom, if_pos hneg, htn, List.length_drop]
      omega
  · intro h0
    subst h0
    show pySliceFrom m.checks (-0) = m.checks
    rw [pySliceFrom]
    norm_num

/-- Witness for C8 at a two-check monitor with limit 1. -/
theorem C8_history_retrieval_witness :
    (demoHist.checks
        = demoMonitorUD.checks.drop
            (demoMonitorUD.checks.length - (1 : ℤ).toNat)
      ∧ demoHist.checks.length
        = min (1 : ℤ).toNat demoMonitorUD.checks.length)
    ∧ demoHist.total_checks = demoMonitorUD.checks.length
    ∧ demoHist.uptime_percentage
        = calculate_uptime_percentage demoMonitorUD := by
  have h := C8_history_retrieval demoStoreUD ("https://a.test") 1
    demoMonitorUD (by rfl) demoHist (by rfl)
  exact ⟨h.1 (by decide), h.2.2.1, h.2.2.2⟩

/-- C9 counterexample: a monitor record created implicitly by the first
ad-hoc probe of an unseen URL carries no id at all, contradicting the claim
that every record does regardless of creation path. -/
theorem C9_implicit_no_id_counterexample :
    ((appendCheck [] ("https://b.test") demoCheckUp ("t0")).find?
        ("https://b.test")).map Monitor.id = some none := by
  decide

/-- C9 amended: a monitor created by explicit AddMonitor carries an id equal
to the decimal string of the creation-time millisecond timestamp, but a
monitor created implicitly by the first ad-hoc probe of an unseen URL
carries no id. -/
theorem C9_id_assignment (s : Store) (url : String) (cr : CheckResult)
    (now : String) (now_ms : ℕ) :
    (∀ s1 resp, add_monitor_logic s url cr now now_ms = Except.ok (s1, resp) →
      (s1.find? url).map Monitor.id = some (some (toString now_ms))
      ∧ resp.id = toString now_ms)
    ∧ (s.find? url = none →
        ((appendCheck s url cr now).find? url).map Monitor.id = some none) := by
  constructor
  · intro s1 resp h
    rw [add_monitor_logic] at h
    by_cases hv : validUrl url = true
    · rw [if_neg (not_not_intro hv)] at h
      by_cases hmem : (s.find? url).isSome = true
      · rw [if_pos hmem] at h
        cases h
      · rw [if_neg hmem] at h
        have hp := Except.ok.inj h
        injection hp with h1 h2
        constructor
        · rw [← h1, Store.find?_insert_self]
          rfl
        · rw [← h2]
    · rw [if_pos hv] at h
      cases h
  · intro hnone
    have hA : appendCheck s url cr now
        = s.insert url
            { url := url, created_at := now,
              checks := truncate100 ([] ++ [cr]), id := none } := by
      rw [appendCheck, hnone]
    rw [hA, Store.find?_insert_self]
    rfl

/-- Witness for C9: explicit add at timestamp 1712 stores id "1712"; an
implicit creation stores no id. -/
theorem C9_id_assignment_witness :
    ((demoAddStore.find? ("https://a.test")).map Monitor.id
        = some (some (toString 1712))
      ∧ demoAddResp.id = toString 1712)
    ∧ ((appendCheck [] ("https://c.test") demoCheckUp ("t0")).find?
        ("https://c.test")).map Monitor.id = some none := by
  have h1 := (C9_id_assignment [] ("https://a.test") demoCheckUp ("t5")
    1712).1 demoAddStore demoAddResp (by rfl)
  have h2 := (C9_id_assignment [] ("https://c.test") demoCheckUp
    ("t0") 0).2 (by rfl)
  exact ⟨h1, h2⟩

end Uptime

namespace Uptime

/-! ### The non-empty-history invariant -/

theorem truncate100_append_ne_nil (l : List CheckResult) (c : CheckResult) :
    truncate100 (l ++ [c]) ≠ [] := by
  intro h
  have hl := truncate100_length (l ++ [c])
  rw [h] at hl
  simp at hl
  omega

theorem mem_appendCheck {p : String × Monitor} {s : Store} {url : String}
    {cr : CheckResult} {now : String} (hp : p ∈ appendCheck s url cr now) :
    (p.2 : Monitor).checks ≠ [] ∨ p ∈ s := by
  rw [appendCheck] at hp
  cases h : s.find? url with
  | some m =>
      rw [h] at hp
      rcases Store.mem_insert hp with he | hm
      · left
        rw [he]
        exact truncate100_append_ne_nil m.checks cr
      · exact Or.inr hm
  | none =>
      rw [h] at hp
      rcases Store.mem_insert hp with he | hm
      · left
        rw [he]
        exact truncate100_append_ne_nil [] cr
      · exact Or.inr hm

theorem step_preserves_nonEmpty (s : Store) (op : Op)
    (hs : nonEmptyChecks s) : nonEmptyChecks (step s op) := by
  cases op with
  | checkUrl url cr now =>
      by_cases hv : validUrl url = true
      · have he : step s (Op.checkUrl url cr now) = appendCheck s url cr now := by
          simp [step, get_monitors_check, hv]
        rw [he]
        intro p hp
        rcases mem_appendCheck hp with hne | hm
        · exact hne
        · exact hs p hm
      · have he : step s (Op.checkUrl url cr now) = s := by
          simp [step, get_monitors_check, hv]
        rw [he]
        exact hs
  | addMonitor url cr now now_ms =>
      by_cases hv : validUrl url = true
      · by_cases hmem : (s.find? url).isSome = true
        · have he : step s (Op.addMonitor url cr now now_ms) = s := by
            simp [step, add_monitor_logic, hv, hmem]
          rw [he]
          exact hs
        · have he : step s (Op.addMonitor url cr now now_ms)
              = s.insert url
                  { url := url, created_at := now, checks := [cr],
                    id := some (toString now_ms) } := by
            simp [step, add_monitor_logic, hv, hmem]
          rw [he]
          intro p hp
          rcases Store.mem_insert hp with hpe | hpm
          · rw [hpe]
            simp
          · exact hs p hpm
      · have he : step s (Op.addMonitor url cr now now_ms) = s := by
          simp [step, add_monitor_logic, hv]
        rw [he]
        exact hs
  | removeMonitor url =>
      by_cases hmem : (s.find? url).isSome = true
      · have he : step s (Op.removeMonitor url) = s.erase url := by
          simp [step, remove_monitor, hmem]
        rw [he]
        intro p hp
        exact hs p (Store.mem_erase hp)
      · have he : step s (Op.removeMonitor url) = s := by
          simp [step, remove_monitor, hmem]
        rw [he]
        exact hs
  | history url limit => exact hs
  | listMonitors => exact hs
  | stats => exact hs

/-- C10: starting from the empty store, after any sequence of completed
public operations every monitor record in the store has a non-empty checks
list — both creation paths store a first check before returning, so the
empty-history branches are never taken on reachable state. -/
theorem C10_nonempty_histories (ops : List Op) :
    nonEmptyChecks (ops.foldl step []) := by
  have hfold : ∀ (l : List Op) (s : Store),
      nonEmptyChecks s → nonEmptyChecks (l.foldl step s) := by
    intro l
    induction l with
    | nil => exact fun s hs => hs
    | cons op rest ih =>
        intro s hs
        exact ih (step s op) (step_preserves_nonEmpty s op hs)
  refine hfold ops [] ?_
  intro p hp
  cases hp

/-- Witness for C10: a concrete mixed run of adds, ad-hoc checks, a removal
and reads. -/
theorem C10_nonempty_histories_witness :
    nonEmptyChecks (demoOps.foldl step []) :=
  C10_nonempty_histories demoOps

end Uptime
